import Mathlib

/-!
Verification of `sqliteai/sqlite-mcp` (src/lib.rs) — a C FFI layer over an
asynchronous MCP (remote tool protocol) client.

Shallow embedding conventions:
* FFI `*const c_char` inputs are `Option String` (`none` = NULL pointer).
* FFI string returns are `String`; a nullable return is `Option String`
  (`none` = the NULL pointer the C code returns on success).
* The external collaborators (the rmcp protocol library, reqwest, and the
  serde_json parser applied to caller-supplied text) are oracles: each FFI
  operation takes their outcome as an explicit `Except`/`Option` argument.
* The process-global mutable state (`GLOBAL_CLIENT`, `STREAM_CHANNELS`,
  `STREAM_COUNTER`, plus a ledger of tokio runtimes created and of sessions
  dropped) is an explicit `GlobalState` threaded through every operation.
* `tokio::sync::mpsc` channels appear as their queued contents
  (`List StreamChunk`, front = oldest); an spawned production task appears
  as the full chunk list it pushes.
-/

/-- JSON values as produced by the external JSON library
(`serde_json::Value`).  Objects are association lists; the external map's
key ordering is abstracted by the list order, and numeric payloads (which no
verified operation inspects) are carried as integers. -/
inductive Json where
  | null : Json
  | bool (b : Bool) : Json
  | num (n : Int) : Json
  | str (s : String) : Json
  | arr (elems : List Json) : Json
  | obj (fields : List (String × Json)) : Json

/-- `serde_json::Value::get` on an object (`None` on any other variant). -/
def Json.getField : Json → String → Option Json
  | Json.obj fields, k => fields.lookup k
  | _, _ => none

/-- `serde_json::Value::as_object` (`None` unless the value is an object). -/
def Json.asObject : Json → Option (List (String × Json))
  | Json.obj fields => some fields
  | _ => none

/-- Hexadecimal digit for JSON control-character escapes. -/
def hexDigit (n : Nat) : Char :=
  if n < 10 then Char.ofNat (48 + n) else Char.ofNat (87 + n)

/-- serde_json escaping of one character inside a JSON string literal. -/
def escapeChar (c : Char) : String :=
  if c = '"' then "\\\""
  else if c = '\\' then "\\\\"
  else if c = '\n' then "\\n"
  else if c = '\r' then "\\r"
  else if c = '\t' then "\\t"
  else if c = '\x08' then "\\b"
  else if c = '\x0c' then "\\f"
  else if c.toNat < 0x20 then
    "\\u00" ++ String.singleton (hexDigit (c.toNat / 16)) ++ String.singleton (hexDigit (c.toNat % 16))
  else String.singleton c

/-- serde_json rendering of a string literal, quotes included. -/
def escapeJsonString (s : String) : String :=
  "\"" ++ String.join (s.data.map escapeChar) ++ "\""

mutual

/-- Compact serialization of a JSON value (`serde_json::to_string`). -/
def Json.render : Json → String
  | Json.null => "null"
  | Json.bool true => "true"
  | Json.bool false => "false"
  | Json.num n => toString n
  | Json.str s => escapeJsonString s
  | Json.arr elems => "[" ++ renderElems elems ++ "]"
  | Json.obj fields => "\x7b" ++ renderFields fields ++ "\x7d"

/-- Comma-separated rendering of array elements. -/
def renderElems : List Json → String
  | [] => ""
  | e :: rest => Json.render e ++ (if rest.isEmpty then "" else ",") ++ renderElems rest

/-- Comma-separated rendering of object members. -/
def renderFields : List (String × Json) → String
  | [] => ""
  | (k, v) :: rest =>
      escapeJsonString k ++ ":" ++ Json.render v ++ (if rest.isEmpty then "" else ",") ++ renderFields rest

end

/-- An established, capability-negotiated remote session
(`rmcp::service::RunningService`), identified abstractly by a numeric tag. -/
structure Session where
  sid : Nat
deriving DecidableEq, Repr

/-- The `McpClient` struct: a tokio runtime (identified abstractly by the
order of its creation), the service slot, and the stored server URL. -/
structure McpClient where
  runtimeId : Nat
  service : Option Session
  serverUrl : Option String
deriving DecidableEq, Repr

/-- One unit of streamed output (the internal `StreamChunk` enum). -/
inductive StreamChunk where
  | tool (v : Json) : StreamChunk
  | text (s : String) : StreamChunk
  | error (e : String) : StreamChunk
  | done : StreamChunk

/-- The process-global mutable state of lib.rs: `GLOBAL_CLIENT`,
`STREAM_CHANNELS` (stream id → queued chunks), `STREAM_COUNTER`, plus two
observation ledgers: how many tokio runtimes `Runtime::new()` has produced,
and which sessions have been dropped (a dropped `RunningService` is
cancelled together with its runtime). -/
structure GlobalState where
  globalClient : Option McpClient
  streamChannels : List (Nat × List StreamChunk)
  streamCounter : Nat
  runtimesCreated : Nat
  droppedSessions : List Session

/-- Process start: no client, no streams, no runtimes yet. -/
def initialState : GlobalState :=
  { globalClient := none
    streamChannels := []
    streamCounter := 0
    runtimesCreated := 0
    droppedSessions := [] }

/-- The connection-state abstraction of the spec: `Option<Session>`. -/
inductive ConnState where
  | idle : ConnState
  | connected (s : Session) : ConnState
deriving DecidableEq, Repr

/-- Connection state read off the global state: a stored client whose
service slot is filled is `connected`; anything else is `idle`. -/
def GlobalState.connState (st : GlobalState) : ConnState :=
  match st.globalClient with
  | none => ConnState.idle
  | some c =>
      match c.service with
      | none => ConnState.idle
      | some s => ConnState.connected s

/-- Registry lookup (`HashMap::get` on `STREAM_CHANNELS`). -/
def regLookup : List (Nat × List StreamChunk) → Nat → Option (List StreamChunk)
  | [], _ => none
  | (k, q) :: r, id => if k = id then some q else regLookup r id

/-- Registry removal (`HashMap::remove`; keys are unique, so removing every
match coincides with removing the entry). -/
def regRemove : List (Nat × List StreamChunk) → Nat → List (Nat × List StreamChunk)
  | [], _ => []
  | (k, q) :: r, id => if k = id then regRemove r id else (k, q) :: regRemove r id

/-- Registry insertion (`HashMap::insert`, replacing any previous entry). -/
def regInsert (r : List (Nat × List StreamChunk)) (id : Nat) (q : List StreamChunk) :
    List (Nat × List StreamChunk) :=
  (id, q) :: regRemove r id

/-- lib.rs line 281: `{"error": "Invalid arguments"}`. -/
def invalidArgumentsErr : String := "\x7b\"error\": \"Invalid arguments\"\x7d"

/-- lib.rs line 308: the malformed-headers error string. -/
def invalidHeadersErr : String :=
  "\x7b\"error\": \"Invalid headers JSON format. Expected: \x7b\\\"Header-Name\\\": \\\"value\\\"\x7d\"\x7d"

/-- lib.rs lines 575 and 669: `{"error": "Not connected. Call mcp_connect() first"}`. -/
def notConnectedErr : String := "\x7b\"error\": \"Not connected. Call mcp_connect() first\"\x7d"

/-- lib.rs lines 585 and 679: `{"error": "Not connected to server"}`. -/
def notConnectedServerErr : String := "\x7b\"error\": \"Not connected to server\"\x7d"

/-- The caller-supplied `headers_json` argument of `mcp_connect` together
with the outcome of the external JSON parse (lib.rs lines 296-319):
NULL pointer, a parse failure, or a parsed string→string map. -/
inductive HeadersInput where
  | null : HeadersInput
  | parseError : HeadersInput
  | parsed (m : List (String × String)) : HeadersInput
deriving DecidableEq, Repr

/-- `mcp_connect` (lib.rs lines 274-563).  `outcome` is the oracle for the
whole async connection block (lines 336-519): header-name/value conversion,
HTTP-client build, transport construction and the rmcp handshake — an
`Except.error` carries the error JSON that block produces, `Except.ok`
carries the established session.  `runtimeOk` is the outcome of
`tokio::runtime::Runtime::new()` at line 323.  The final status-check on
the result string (lines 534-562) returns NULL exactly on the success
message, which is the only one carrying `"status": "connected"`. -/
def mcp_connect (st : GlobalState) (serverUrl : Option String) (headers : HeadersInput)
    (_legacySse : Int) (runtimeOk : Bool) (outcome : Except String Session) :
    GlobalState × Option String :=
  match serverUrl with
  | none => (st, some invalidArgumentsErr)
  | some url =>
      match headers with
      | HeadersInput.parseError => (st, some invalidHeadersErr)
      | _ =>
          if runtimeOk then
            let st1 := { st with runtimesCreated := st.runtimesCreated + 1 }
            match outcome with
            | Except.error e => (st1, some e)
            | Except.ok session =>
                let newClient : McpClient :=
                  { runtimeId := st1.runtimesCreated
                    service := some session
                    serverUrl := some url }
                let dropped :=
                  match st.globalClient with
                  | some old =>
                      match old.service with
                      | some s => [s]
                      | none => []
                  | none => []
                ({ st1 with
                    globalClient := some newClient
                    droppedSessions := st1.droppedSessions ++ dropped }, none)
          else (st, some "\x7b\"error\": \"Failed to create runtime\"\x7d")

/-- `mcp_client_new` (lib.rs lines 243-255): builds a fresh tokio runtime
and returns a boxed client; the global state is untouched apart from the
runtime ledger.  `runtimeOk = false` is the `Runtime::new()` failure path
returning NULL. -/
def mcp_client_new (st : GlobalState) (runtimeOk : Bool) : GlobalState × Option McpClient :=
  if runtimeOk then
    ({ st with runtimesCreated := st.runtimesCreated + 1 },
     some { runtimeId := st.runtimesCreated + 1, service := none, serverUrl := none })
  else (st, none)

/-- One tool descriptor as consumed by `mcp_list_tools_json` (name,
optional description, input schema of the rmcp `Tool`). -/
structure ToolInfo where
  name : String
  description : Option String
  inputSchema : Json

/-- The `json!` object built per tool at lib.rs lines 595-599. -/
def toolInfoJson (t : ToolInfo) : Json :=
  Json.obj
    [("name", Json.str t.name),
     ("description", match t.description with | some d => Json.str d | none => Json.null),
     ("inputSchema", t.inputSchema)]

/-- `mcp_list_tools_json` (lib.rs lines 568-618).  `listOutcome` is the
oracle for `service.list_tools(...)`.  (`serde_json::to_string` of a
string-keyed `Value` cannot fail, so the line-607 serialization-error arm
is dead and not modelled.) -/
def mcp_list_tools_json (st : GlobalState)
    (listOutcome : Except String (List ToolInfo)) : GlobalState × String :=
  match st.globalClient with
  | none => (st, notConnectedErr)
  | some c =>
      match c.service with
      | none => (st, notConnectedServerErr)
      | some _ =>
          match listOutcome with
          | Except.ok tools =>
              (st, Json.render (Json.obj [("tools", Json.arr (tools.map toolInfoJson))]))
          | Except.error e =>
              (st, "\x7b\"error\": \"Failed to list tools: " ++ e ++ "\"\x7d")

/-- The `CallToolRequestParam` handed to the rmcp collaborator: the tool
name and `arguments.as_object().cloned()`. -/
structure CallToolRequestParam where
  name : String
  arguments : Option (List (String × Json))

/-- `mcp_call_tool_json` (lib.rs lines 625-705).  `parse` is the oracle
for `serde_json::from_str(arguments_str)` (line 655); `callOutcome` for
`service.call_tool(...)` (line 688, the `ok` payload being the
serializable result).  The third component observes the
`CallToolRequestParam` dispatched to the collaborator (`none` when no
remote call was made). -/
def mcp_call_tool_json (st : GlobalState) (toolName : Option String)
    (argumentsJson : Option String) (parse : Except String Json)
    (callOutcome : Except String Json) :
    GlobalState × String × Option CallToolRequestParam :=
  match toolName, argumentsJson with
  | none, _ => (st, invalidArgumentsErr, none)
  | _, none => (st, invalidArgumentsErr, none)
  | some nm, some _ =>
      match parse with
      | Except.error e => (st, "\x7b\"error\": \"Invalid JSON: " ++ e ++ "\"\x7d", none)
      | Except.ok arguments =>
          match st.globalClient with
          | none => (st, notConnectedErr, none)
          | some c =>
              match c.service with
              | none => (st, notConnectedServerErr, none)
              | some _ =>
                  let param : CallToolRequestParam :=
                    { name := nm, arguments := arguments.asObject }
                  match callOutcome with
                  | Except.ok result =>
                      (st, Json.render (Json.obj [("result", result)]), some param)
                  | Except.error e =>
                      (st, "\x7b\"error\": \"Tool call failed: " ++ e ++ "\"\x7d", some param)

/-- The chunk sequence pushed by the task spawned in `mcp_list_tools_init`
(lib.rs lines 765-793, including the no-client arm at lines 790-793).
`listOutcome`'s ok payload carries, per tool, the outcome of
`serde_json::to_value(&tool)` (line 772): a failed serialization skips that
tool's chunk. -/
def listToolsTaskChunks (clientPresent servicePresent : Bool)
    (listOutcome : Except String (List (Option Json))) : List StreamChunk :=
  if clientPresent then
    if servicePresent then
      match listOutcome with
      | Except.ok tools =>
          (tools.filterMap id).map StreamChunk.tool ++ [StreamChunk.done]
      | Except.error e =>
          [StreamChunk.error ("Failed to list tools: " ++ e), StreamChunk.done]
    else
      [StreamChunk.error "Not connected. Call mcp_connect() first", StreamChunk.done]
  else
    [StreamChunk.error "Client not initialized", StreamChunk.done]

/-- Text-content extraction in the `mcp_call_tool_init` task
(lib.rs lines 876-886): keep the `text` field of each content item whose
`type` is `"text"`. -/
def extractTextChunks (resultJson : Json) : List StreamChunk :=
  match resultJson.getField "content" with
  | some (Json.arr items) =>
      items.filterMap fun item =>
        match item.getField "type" with
        | some (Json.str t) =>
            if t = "text" then
              match item.getField "text" with
              | some (Json.str s) => some (StreamChunk.text s)
              | _ => none
            else none
        | _ => none
  | _ => []

/-- The chunk sequence pushed by the task spawned in `mcp_call_tool_init`
(lib.rs lines 852-903) together with the `CallToolRequestParam` it
dispatches (none when no remote call is made).  `parse` is the oracle for
the line-856 argument parse; `callOutcome`'s ok payload carries the
outcome of `serde_json::to_value(&result)` (line 875): a failed
serialization skips content extraction but still sends `Done`. -/
def callToolTaskChunks (clientPresent servicePresent : Bool) (toolName : String)
    (parse : Except String Json) (callOutcome : Except String (Option Json)) :
    List StreamChunk × Option CallToolRequestParam :=
  if clientPresent then
    if servicePresent then
      match parse with
      | Except.error e =>
          ([StreamChunk.error ("Invalid JSON arguments: " ++ e), StreamChunk.done], none)
      | Except.ok arguments =>
          let param : CallToolRequestParam :=
            { name := toolName, arguments := arguments.asObject }
          match callOutcome with
          | Except.ok (some resultJson) =>
              (extractTextChunks resultJson ++ [StreamChunk.done], some param)
          | Except.ok none => ([StreamChunk.done], some param)
          | Except.error e =>
              ([StreamChunk.error ("Failed to call tool: " ++ e), StreamChunk.done], some param)
    else
      ([StreamChunk.error "Not connected. Call mcp_connect() first", StreamChunk.done], none)
  else
    ([StreamChunk.error "Client not initialized", StreamChunk.done], none)

/-- `mcp_list_tools_init` (lib.rs lines 743-806): bump `STREAM_COUNTER`,
spawn the production task, and — only when a global client exists — store
the receiver in `STREAM_CHANNELS` before returning the id.  When no client
is stored, the chunks already sent on the channel are discarded with it and
nothing is registered.  The registered queue holds the chunks the task
pushes. -/
def mcp_list_tools_init (st : GlobalState)
    (listOutcome : Except String (List (Option Json))) : GlobalState × Nat :=
  let streamId := st.streamCounter + 1
  let st1 := { st with streamCounter := streamId }
  match st1.globalClient with
  | some c =>
      let chunks := listToolsTaskChunks true c.service.isSome listOutcome
      ({ st1 with streamChannels := regInsert st1.streamChannels streamId chunks }, streamId)
  | none => (st1, streamId)

/-- `mcp_call_tool_init` (lib.rs lines 811-916): NULL or invalid inputs
return stream id 0 without touching any state; otherwise bump the counter,
spawn the task, and register the receiver only when a global client
exists. -/
def mcp_call_tool_init (st : GlobalState) (toolName argumentsJson : Option String)
    (parse : Except String Json) (callOutcome : Except String (Option Json)) :
    GlobalState × Nat :=
  match toolName with
  | none => (st, 0)
  | some nm =>
      match argumentsJson with
      | none => (st, 0)
      | some _ =>
          let streamId := st.streamCounter + 1
          let st1 := { st with streamCounter := streamId }
          match st1.globalClient with
          | some c =>
              let chunks := (callToolTaskChunks true c.service.isSome nm parse callOutcome).1
              ({ st1 with streamChannels := regInsert st1.streamChannels streamId chunks },
               streamId)
          | none => (st1, streamId)

/-- `mcp_stream_next` (lib.rs lines 921-942): NULL when no client is
stored, when the id has no registered queue, and when the registered queue
is empty (`try_recv` yielding `Err`); otherwise pop and return the oldest
chunk. -/
def mcp_stream_next (st : GlobalState) (streamId : Nat) :
    GlobalState × Option StreamChunk :=
  match st.globalClient with
  | none => (st, none)
  | some _ =>
      match regLookup st.streamChannels streamId with
      | none => (st, none)
      | some [] => (st, none)
      | some (c :: rest) =>
          ({ st with streamChannels := regInsert st.streamChannels streamId rest }, some c)

/-- `mcp_stream_cleanup` (lib.rs lines 974-984): remove the queue when a
client is stored; in every case return unit (there is no error channel). -/
def mcp_stream_cleanup (st : GlobalState) (streamId : Nat) : GlobalState :=
  match st.globalClient with
  | none => st
  | some _ => { st with streamChannels := regRemove st.streamChannels streamId }

/-- A production task's `let _ = tx.send(chunk)`: append to the queue when
the receiver is still registered; when the receiver has been removed and
dropped, `send` returns `Err`, which the `let _ =` discards — the state is
untouched and nothing panics. -/
def taskSend (st : GlobalState) (streamId : Nat) (c : StreamChunk) : GlobalState :=
  match regLookup st.streamChannels streamId with
  | none => st
  | some q => { st with streamChannels := regInsert st.streamChannels streamId (q ++ [c]) }

/-- Concrete session used by witnesses and counterexamples. -/
def sessionA : Session := { sid := 7 }

/-- Concrete connected client used by witnesses and counterexamples. -/
def clientA : McpClient :=
  { runtimeId := 1, service := some sessionA, serverUrl := some "http://old/sse" }

/-- Concrete connected global state: one client, one registered stream
(id 5) whose queue is currently empty. -/
def stConnected : GlobalState :=
  { globalClient := some clientA
    streamChannels := [(5, [])]
    streamCounter := 5
    runtimesCreated := 1
    droppedSessions := [] }

/-- Modelled from the spec: src/lib.rs defines no disconnect operation —
only the spec's interface section (`disconnect() -> null | error_json`) and
worker state machine (`Disconnect` — `Connected → Idle`, cancelling the
session; from `Idle` a no-op success) describe it.  Dropping the stored
client cancels its session and runtime, leaving the state Idle; with no
stored client nothing happens and null is returned. -/
def mcp_disconnect (st : GlobalState) : GlobalState × Option String :=
  match st.globalClient with
  | none => (st, none)
  | some c =>
      ({ st with
          globalClient := none
          droppedSessions :=
            st.droppedSessions ++ (match c.service with | some s => [s] | none => []) },
       none)

theorem regLookup_insert_self (r : List (Nat × List StreamChunk)) (id : Nat)
    (q : List StreamChunk) : regLookup (regInsert r id q) id = some q := by
  simp [regLookup, regInsert]

theorem regLookup_remove_self (r : List (Nat × List StreamChunk)) (id : Nat) :
    regLookup (regRemove r id) id = none := by
  induction r with
  | nil => rfl
  | cons p r ih =>
      rcases p with ⟨k, q⟩
      by_cases h : k = id
      · simpa [regRemove, h] using ih
      · simpa [regRemove, regLookup, h] using ih

theorem regRemove_of_lookup_none (r : List (Nat × List StreamChunk)) (id : Nat)
    (h : regLookup r id = none) : regRemove r id = r := by
  induction r with
  | nil => rfl
  | cons p r ih =>
      rcases p with ⟨k, q⟩
      by_cases hk : k = id
      · simp [regLookup, hk] at h
      · simp [regLookup, hk] at h
        simp [regRemove, hk, ih h]

theorem regRemove_idem (r : List (Nat × List StreamChunk)) (id : Nat) :
    regRemove (regRemove r id) id = regRemove r id :=
  regRemove_of_lookup_none _ _ (regLookup_remove_self r id)

/-- C6: `mcp_stream_cleanup` is idempotent — a repeated call changes
nothing, a call whose id has no registered queue is a no-op, the return
type is unit so no call ever errors; and once a client is stored, cleanup
actually removes the queue, after which a production task's discarded
`send` on the closed channel (`taskSend`) leaves the state unchanged
without panicking. -/
theorem mcp_stream_cleanup_idempotent (st : GlobalState) (streamId : Nat) (c : StreamChunk) :
    mcp_stream_cleanup (mcp_stream_cleanup st streamId) streamId
      = mcp_stream_cleanup st streamId
    ∧ (regLookup st.streamChannels streamId = none → mcp_stream_cleanup st streamId = st)
    ∧ (st.globalClient.isSome →
        regLookup (mcp_stream_cleanup st streamId).streamChannels streamId = none
        ∧ taskSend (mcp_stream_cleanup st streamId) streamId c
            = mcp_stream_cleanup st streamId) := by
  obtain ⟨gc, sc, cnt, rc, ds⟩ := st
  cases gc with
  | none =>
      refine ⟨rfl, fun _ => rfl, fun hs => ?_⟩
      simp at hs
  | some cl =>
      refine ⟨?_, fun hn => ?_, fun _ => ⟨?_, ?_⟩⟩
      · simp [mcp_stream_cleanup, regRemove_idem]
      · simp [mcp_stream_cleanup, regRemove_of_lookup_none _ _ hn]
      · simp [mcp_stream_cleanup, regLookup_remove_self]
      · simp [taskSend, mcp_stream_cleanup, regLookup_remove_self]

/-- C6 witness: cleanup of an unknown id on the initial state is a no-op;
on a connected state with stream 5 registered, cleanup removes the queue,
a repeat call changes nothing, and a late task send is tolerated. -/
theorem mcp_stream_cleanup_idempotent_witness :
    mcp_stream_cleanup initialState 7 = initialState
    ∧ regLookup (mcp_stream_cleanup stConnected 5).streamChannels 5 = none
    ∧ mcp_stream_cleanup (mcp_stream_cleanup stConnected 5) 5
        = mcp_stream_cleanup stConnected 5
    ∧ taskSend (mcp_stream_cleanup stConnected 5) 5 StreamChunk.done
        = mcp_stream_cleanup stConnected 5 :=
  ⟨(mcp_stream_cleanup_idempotent initialState 7 StreamChunk.done).2.1 rfl,
   ((mcp_stream_cleanup_idempotent stConnected 5 StreamChunk.done).2.2 rfl).1,
   (mcp_stream_cleanup_idempotent stConnected 5 StreamChunk.done).1,
   ((mcp_stream_cleanup_idempotent stConnected 5 StreamChunk.done).2.2 rfl).2⟩

/-- C5 (amended): `mcp_stream_next` is a total (hence non-blocking, it is
built on `try_recv`) function of the current state: with no stored client
it returns NULL; for an unregistered id it returns NULL; for a registered
but empty queue it returns NULL; and when the queue holds a chunk it pops
and returns the oldest one.  The NULL result does not distinguish the
unknown-stream case from the no-data case. -/
theorem mcp_stream_next_spec (st : GlobalState) (streamId : Nat) :
    (st.globalClient = none → mcp_stream_next st streamId = (st, none))
    ∧ (regLookup st.streamChannels streamId = none →
        mcp_stream_next st streamId = (st, none))
    ∧ (regLookup st.streamChannels streamId = some [] →
        mcp_stream_next st streamId = (st, none))
    ∧ (∀ c rest, st.globalClient.isSome →
        regLookup st.streamChannels streamId = some (c :: rest) →
        (mcp_stream_next st streamId).2 = some c
        ∧ regLookup (mcp_stream_next st streamId).1.streamChannels streamId = some rest) := by
  cases hg : st.globalClient with
  | none =>
      refine ⟨fun _ => ?_, fun _ => ?_, fun _ => ?_, fun c rest hs _ => ?_⟩
      · simp [mcp_stream_next, hg]
      · simp [mcp_stream_next, hg]
      · simp [mcp_stream_next, hg]
      · simp at hs
  | some cl =>
      refine ⟨fun h => ?_, fun hn => ?_, fun he => ?_, fun c rest _ hq => ?_⟩
      · simp at h
      · simp [mcp_stream_next, hg, hn]
      · simp [mcp_stream_next, hg, he]
      · constructor
        · simp [mcp_stream_next, hg, hq]
        · simp [mcp_stream_next, hg, hq, regLookup_insert_self]

/-- C5 witness: on a connected state whose stream 5 is registered with the
one-chunk queue `[Done]`, poll pops `Done` and leaves the queue empty; on
`initialState` (no client) and on an unknown id, poll returns NULL. -/
theorem mcp_stream_next_spec_witness :
    (mcp_stream_next { stConnected with streamChannels := [(5, [StreamChunk.done])] } 5).2
      = some StreamChunk.done
    ∧ regLookup
        (mcp_stream_next { stConnected with streamChannels := [(5, [StreamChunk.done])] } 5).1.streamChannels
        5 = some []
    ∧ mcp_stream_next initialState 3 = (initialState, none)
    ∧ mcp_stream_next stConnected 99 = (stConnected, none) :=
  ⟨((mcp_stream_next_spec { stConnected with streamChannels := [(5, [StreamChunk.done])] } 5).2.2.2
      StreamChunk.done [] rfl rfl).1,
   ((mcp_stream_next_spec { stConnected with streamChannels := [(5, [StreamChunk.done])] } 5).2.2.2
      StreamChunk.done [] rfl rfl).2,
   (mcp_stream_next_spec initialState 3).1 rfl,
   (mcp_stream_next_spec stConnected 99).2.1 rfl⟩

/-- C5 counterexample: the claim asserts a distinct "unknown stream" result
for an unregistered id, distinguishable from the "no data yet" result of a
registered-but-empty stream.  On `stConnected`, stream 5 is registered with
an empty queue and stream 99 is unregistered, yet `mcp_stream_next` returns
the same NULL result `(st, none)` for both — no distinct result exists. -/
theorem mcp_stream_next_no_unknown_stream_result :
    mcp_stream_next stConnected 5 = (stConnected, none)
    ∧ mcp_stream_next stConnected 99 = (stConnected, none)
    ∧ regLookup stConnected.streamChannels 5 = some []
    ∧ regLookup stConnected.streamChannels 99 = none :=
  ⟨rfl, rfl, rfl, rfl⟩

/-- C4 (amended): whenever a global client is stored, both stream-init
operations register the chunk queue for the fresh stream id in
`STREAM_CHANNELS` before the id is returned to the caller.  (Without a
stored client the id is returned unregistered — see the counterexample.) -/
theorem stream_init_registers_before_return (st : GlobalState)
    (listOutcome : Except String (List (Option Json))) (nm args : String)
    (parse : Except String Json) (callOutcome : Except String (Option Json))
    (h : st.globalClient.isSome) :
    (regLookup (mcp_list_tools_init st listOutcome).1.streamChannels
        (mcp_list_tools_init st listOutcome).2).isSome
    ∧ (regLookup (mcp_call_tool_init st (some nm) (some args) parse callOutcome).1.streamChannels
        (mcp_call_tool_init st (some nm) (some args) parse callOutcome).2).isSome := by
  cases hg : st.globalClient with
  | none => rw [hg] at h; simp at h
  | some cl =>
      constructor
      · simp [mcp_list_tools_init, hg, regLookup_insert_self]
      · simp [mcp_call_tool_init, hg, regLookup_insert_self]

/-- C4 witness: on the connected state `stConnected`, both inits return id
6 and its queue is found registered. -/
theorem stream_init_registers_before_return_witness :
    (regLookup (mcp_list_tools_init stConnected (Except.ok [])).1.streamChannels
        (mcp_list_tools_init stConnected (Except.ok [])).2).isSome
    ∧ (regLookup
        (mcp_call_tool_init stConnected (some "echo") (some "\x7b\x7d")
          (Except.ok (Json.obj [])) (Except.ok none)).1.streamChannels
        (mcp_call_tool_init stConnected (some "echo") (some "\x7b\x7d")
          (Except.ok (Json.obj [])) (Except.ok none)).2).isSome :=
  ⟨(stream_init_registers_before_return stConnected (Except.ok []) "echo" "\x7b\x7d"
      (Except.ok (Json.obj [])) (Except.ok none) rfl).1,
   (stream_init_registers_before_return stConnected (Except.ok []) "echo" "\x7b\x7d"
      (Except.ok (Json.obj [])) (Except.ok none) rfl).2⟩

/-- C4 counterexample: with no stored client (`initialState`, i.e. before
any successful connect), `mcp_list_tools_init` returns stream id 1 but the
lines 797-803 registration block is skipped, so no queue is registered for
the returned id — a subsequent poll observes an unregistered stream,
contrary to the claim that the entry is always registered before the id is
returned. -/
theorem mcp_list_tools_init_unregistered_without_client :
    (mcp_list_tools_init initialState (Except.ok [])).2 = 1
    ∧ regLookup (mcp_list_tools_init initialState (Except.ok [])).1.streamChannels 1 = none
    ∧ mcp_stream_next (mcp_list_tools_init initialState (Except.ok [])).1 1
        = ((mcp_list_tools_init initialState (Except.ok [])).1, none) :=
  ⟨rfl, rfl, rfl⟩

/-- A chunk that may precede `Done`: a tool descriptor or a text
fragment. -/
def nonTerminalChunk (c : StreamChunk) : Prop :=
  (∃ v, c = StreamChunk.tool v) ∨ (∃ s, c = StreamChunk.text s)

/-- The streaming invariant of the spec: zero or more non-terminal chunks
followed by exactly one `Done`, or — on production failure — exactly one
`Error` chunk followed by `Done`. -/
def ChunkProtocol (cs : List StreamChunk) : Prop :=
  (∃ pre, cs = pre ++ [StreamChunk.done] ∧ ∀ c ∈ pre, nonTerminalChunk c)
  ∨ (∃ e, cs = [StreamChunk.error e, StreamChunk.done])

theorem extractTextChunks_text (j : Json) (c : StreamChunk)
    (hc : c ∈ extractTextChunks j) : ∃ s, c = StreamChunk.text s := by
  unfold extractTextChunks at hc
  split at hc
  · rcases List.mem_filterMap.mp hc with ⟨item, _, hf⟩
    split at hf
    · split at hf
      · split at hf
        · exact ⟨_, (Option.some.injEq _ _ ▸ hf).symm⟩
        · cases hf
      · cases hf
    · cases hf
  · cases hc

/-- C3: every chunk sequence pushed by the `mcp_list_tools_init` or
`mcp_call_tool_init` production task — under any client/service state and
any collaborator outcome — is zero or more non-terminal chunks
(ToolDescriptor/TextFragment) followed by exactly one `Done`, or, on
production failure, exactly one `Error` chunk followed by `Done`; nothing
is ever emitted after `Done`. -/
theorem stream_task_chunk_protocol (cp sp : Bool)
    (listOutcome : Except String (List (Option Json))) (nm : String)
    (parse : Except String Json) (callOutcome : Except String (Option Json)) :
    ChunkProtocol (listToolsTaskChunks cp sp listOutcome)
    ∧ ChunkProtocol (callToolTaskChunks cp sp nm parse callOutcome).1 := by
  constructor
  · cases cp with
    | false => exact Or.inr ⟨_, rfl⟩
    | true =>
        cases sp with
        | false => exact Or.inr ⟨_, rfl⟩
        | true =>
            cases listOutcome with
            | error e => exact Or.inr ⟨_, rfl⟩
            | ok tools =>
                refine Or.inl ⟨(tools.filterMap id).map StreamChunk.tool, rfl, ?_⟩
                intro c hc
                rcases List.mem_map.mp hc with ⟨v, _, rfl⟩
                exact Or.inl ⟨v, rfl⟩
  · cases cp with
    | false => exact Or.inr ⟨_, rfl⟩
    | true =>
        cases sp with
        | false => exact Or.inr ⟨_, rfl⟩
        | true =>
            cases parse with
            | error e => exact Or.inr ⟨_, rfl⟩
            | ok arguments =>
                cases callOutcome with
                | error e => exact Or.inr ⟨_, rfl⟩
                | ok r =>
                    cases r with
                    | none => exact Or.inl ⟨[], rfl, by intro c hc; cases hc⟩
                    | some resultJson =>
                        refine Or.inl ⟨extractTextChunks resultJson, rfl, ?_⟩
                        intro c hc
                        exact Or.inr (extractTextChunks_text resultJson c hc)

/-- C1 (amended): after any `mcp_connect` call — on success (NULL return)
the connection state is `Connected(new session)` and any previously
connected session has been dropped/cancelled with its replaced client; on
any failure (error return) the operation aborts without touching
`GLOBAL_CLIENT`, so the connection state is exactly what it was before:
`Idle` stays `Idle`, but a previously connected session stays connected
and is not cancelled. -/
theorem mcp_connect_state_machine (st : GlobalState) (serverUrl : Option String)
    (headers : HeadersInput) (legacySse : Int) (runtimeOk : Bool)
    (outcome : Except String Session) :
    ((mcp_connect st serverUrl headers legacySse runtimeOk outcome).2 = none →
       (∃ s, outcome = Except.ok s
          ∧ (mcp_connect st serverUrl headers legacySse runtimeOk outcome).1.connState
              = ConnState.connected s)
       ∧ ∀ old, st.connState = ConnState.connected old →
           old ∈ (mcp_connect st serverUrl headers legacySse runtimeOk outcome).1.droppedSessions)
    ∧ ((mcp_connect st serverUrl headers legacySse runtimeOk outcome).2 ≠ none →
        (mcp_connect st serverUrl headers legacySse runtimeOk outcome).1.globalClient
          = st.globalClient
        ∧ (mcp_connect st serverUrl headers legacySse runtimeOk outcome).1.connState
          = st.connState) := by
  cases serverUrl with
  | none => exact ⟨fun h => by simp [mcp_connect] at h, fun _ => ⟨rfl, rfl⟩⟩
  | some url =>
      cases headers with
      | parseError => exact ⟨fun h => by simp [mcp_connect] at h, fun _ => ⟨rfl, rfl⟩⟩
      | null =>
          cases runtimeOk with
          | false => exact ⟨fun h => by simp [mcp_connect] at h, fun _ => ⟨rfl, rfl⟩⟩
          | true =>
              cases outcome with
              | error e => exact ⟨fun h => by simp [mcp_connect] at h, fun _ => ⟨rfl, rfl⟩⟩
              | ok s =>
                  refine ⟨fun _ => ⟨⟨s, rfl, rfl⟩, fun old hold => ?_⟩,
                          fun h => absurd rfl h⟩
                  unfold GlobalState.connState at hold
                  split at hold
                  · cases hold
                  · next c heq =>
                      split at hold
                      · cases hold
                      · next s2 heq2 =>
                          cases hold
                          simp [mcp_connect, heq, heq2]
      | parsed m =>
          cases runtimeOk with
          | false => exact ⟨fun h => by simp [mcp_connect] at h, fun _ => ⟨rfl, rfl⟩⟩
          | true =>
              cases outcome with
              | error e => exact ⟨fun h => by simp [mcp_connect] at h, fun _ => ⟨rfl, rfl⟩⟩
              | ok s =>
                  refine ⟨fun _ => ⟨⟨s, rfl, rfl⟩, fun old hold => ?_⟩,
                          fun h => absurd rfl h⟩
                  unfold GlobalState.connState at hold
                  split at hold
                  · cases hold
                  · next c heq =>
                      split at hold
                      · cases hold
                      · next s2 heq2 =>
                          cases hold
                          simp [mcp_connect, heq, heq2]

/-- C1 witness: a successful reconnect on `stConnected` (previous session
`sessionA`) yields a `Connected` state with the new session 9 and drops
`sessionA`; a failed connect (handshake error) on the same state returns an
error and leaves `GLOBAL_CLIENT` untouched. -/
theorem mcp_connect_state_machine_witness :
    ((mcp_connect stConnected (some "http://new/sse") HeadersInput.null 1 true
        (Except.ok { sid := 9 })).1.connState = ConnState.connected { sid := 9 }
      ∧ sessionA ∈ (mcp_connect stConnected (some "http://new/sse") HeadersInput.null 1 true
          (Except.ok { sid := 9 })).1.droppedSessions)
    ∧ (mcp_connect stConnected (some "http://new/sse") HeadersInput.null 1 true
        (Except.error "\x7b\"error\": \"Failed to connect to MCP server: refused\"\x7d")).1.globalClient
        = stConnected.globalClient := by
  refine ⟨⟨?_, ?_⟩, ?_⟩
  · obtain ⟨⟨s, hs, hconn⟩, -⟩ :=
      (mcp_connect_state_machine stConnected (some "http://new/sse") HeadersInput.null 1 true
        (Except.ok { sid := 9 })).1 rfl
    cases hs
    exact hconn
  · exact ((mcp_connect_state_machine stConnected (some "http://new/sse") HeadersInput.null 1 true
        (Except.ok { sid := 9 })).1 rfl).2 sessionA rfl
  · exact ((mcp_connect_state_machine stConnected (some "http://new/sse") HeadersInput.null 1 true
        (Except.error "\x7b\"error\": \"Failed to connect to MCP server: refused\"\x7d")).2
      (by simp [mcp_connect])).1

/-- C1 counterexample: the claim says a failed `Connect` leaves the state
`Idle`, the previous session having already been cancelled.  On the
connected state `stConnected` a failed reconnect (handshake refused) keeps
`GLOBAL_CLIENT` untouched (lines 521-531 run only on success): the state
remains `Connected(sessionA)` — not `Idle`, not a new session — and
`sessionA` was never cancelled. -/
theorem mcp_connect_failure_keeps_previous_session :
    (mcp_connect stConnected (some "http://new/sse") HeadersInput.null 0 true
        (Except.error "\x7b\"error\": \"Failed to connect to MCP server: refused\"\x7d")).1.connState
      = ConnState.connected sessionA
    ∧ ConnState.connected sessionA ≠ ConnState.idle
    ∧ sessionA ∉
        (mcp_connect stConnected (some "http://new/sse") HeadersInput.null 0 true
          (Except.error "\x7b\"error\": \"Failed to connect to MCP server: refused\"\x7d")).1.droppedSessions := by
  refine ⟨rfl, by decide, ?_⟩
  intro h
  simp [mcp_connect, stConnected] at h

/-- C2 (amended): while no client is stored (`Idle`), `mcp_list_tools_json`
returns the StateError string `{"error": "Not connected. Call
mcp_connect() first"}` and leaves the state untouched; `mcp_call_tool_json`
returns the same StateError provided its inputs are non-null and the
argument string parses as JSON (input validation runs before the connection
check, so a malformed argument yields an InputError instead), and in every
case it leaves the state untouched and dispatches nothing. -/
theorem idle_ops_return_state_error (st : GlobalState)
    (listOutcome : Except String (List ToolInfo)) (nm args : String)
    (parse : Except String Json) (callOutcome : Except String Json)
    (h : st.globalClient = none) :
    mcp_list_tools_json st listOutcome = (st, notConnectedErr)
    ∧ (∀ v, parse = Except.ok v →
        mcp_call_tool_json st (some nm) (some args) parse callOutcome
          = (st, notConnectedErr, none))
    ∧ (mcp_call_tool_json st (some nm) (some args) parse callOutcome).1 = st
    ∧ (mcp_call_tool_json st (some nm) (some args) parse callOutcome).2.2 = none := by
  refine ⟨by simp [mcp_list_tools_json, h], ?_, ?_, ?_⟩
  · rintro v rfl
    simp [mcp_call_tool_json, h]
  · cases parse <;> simp [mcp_call_tool_json, h]
  · cases parse <;> simp [mcp_call_tool_json, h]

/-- C2 witness: on `initialState`, list-tools returns the not-connected
StateError and call-tool with a well-formed empty-object argument does the
same without dispatching. -/
theorem idle_ops_return_state_error_witness :
    mcp_list_tools_json initialState (Except.ok []) = (initialState, notConnectedErr)
    ∧ mcp_call_tool_json initialState (some "echo") (some "\x7b\x7d")
        (Except.ok (Json.obj [])) (Except.ok Json.null)
        = (initialState, notConnectedErr, none) :=
  ⟨(idle_ops_return_state_error initialState (Except.ok []) "echo" "\x7b\x7d"
      (Except.ok (Json.obj [])) (Except.ok Json.null) rfl).1,
   (idle_ops_return_state_error initialState (Except.ok []) "echo" "\x7b\x7d"
      (Except.ok (Json.obj [])) (Except.ok Json.null) rfl).2.1 (Json.obj []) rfl⟩

/-- C2 counterexample: the claim fixes the exact pre-connect error JSON as
`{"error":"Not connected. Call connect() first"}`; the code (lib.rs line
575) returns `{"error": "Not connected. Call mcp_connect() first"}` — the
message names `mcp_connect()`, not `connect()` (and the code string also
has a space after the colon), so the two differ even as JSON values. -/
theorem mcp_list_tools_idle_message_differs :
    (mcp_list_tools_json initialState (Except.ok [])).2 = notConnectedErr
    ∧ notConnectedErr ≠ "\x7b\"error\":\"Not connected. Call connect() first\"\x7d"
    ∧ "Not connected. Call mcp_connect() first" ≠ "Not connected. Call connect() first" :=
  ⟨rfl, by decide, by decide⟩

/-- C7 (spec-modelled): `disconnect()` always succeeds (returns null): from
`Connected` it cancels (drops) the session and transitions to `Idle`; with
no stored client it is a no-op success. -/
theorem mcp_disconnect_spec (st : GlobalState) :
    (mcp_disconnect st).2 = none
    ∧ (mcp_disconnect st).1.connState = ConnState.idle
    ∧ (∀ s, st.connState = ConnState.connected s →
        s ∈ (mcp_disconnect st).1.droppedSessions)
    ∧ (st.globalClient = none → (mcp_disconnect st).1 = st) := by
  cases hg : st.globalClient with
  | none =>
      refine ⟨by simp [mcp_disconnect, hg], by simp [mcp_disconnect, hg, GlobalState.connState],
              fun s hs => ?_, fun _ => by simp [mcp_disconnect, hg]⟩
      unfold GlobalState.connState at hs
      rw [hg] at hs
      cases hs
  | some c =>
      refine ⟨by simp [mcp_disconnect, hg], by simp [mcp_disconnect, hg, GlobalState.connState],
              fun s hs => ?_, fun hn => Option.noConfusion hn⟩
      simp only [GlobalState.connState, hg] at hs
      cases hsvc : c.service with
      | none => simp [hsvc] at hs
      | some s2 =>
          simp only [hsvc] at hs
          cases hs
          simp [mcp_disconnect, hg, hsvc]

/-- C7 witness: disconnecting the connected state `stConnected` returns
null, lands in `Idle` and drops `sessionA`; disconnecting `initialState`
is a no-op success. -/
theorem mcp_disconnect_spec_witness :
    (mcp_disconnect stConnected).2 = none
    ∧ (mcp_disconnect stConnected).1.connState = ConnState.idle
    ∧ sessionA ∈ (mcp_disconnect stConnected).1.droppedSessions
    ∧ (mcp_disconnect initialState).1 = initialState :=
  ⟨(mcp_disconnect_spec stConnected).1,
   (mcp_disconnect_spec stConnected).2.1,
   (mcp_disconnect_spec stConnected).2.2.1 sessionA rfl,
   (mcp_disconnect_spec initialState).2.2.2 rfl⟩

/-- C8: in a connected state, an argument string that the external JSON
library parses as an object with unique keys is handed to the remote
collaborator unmodified — the dispatched `CallToolRequestParam.arguments`
is exactly the parsed field list (`arguments.as_object().cloned()`), so the
key set and the value associated with each key are preserved verbatim. -/
theorem mcp_call_tool_json_object_roundtrip (st : GlobalState) (c : McpClient)
    (s : Session) (nm args : String) (fields : List (String × Json))
    (callOutcome : Except String Json)
    (hg : st.globalClient = some c) (hs : c.service = some s)
    (hnd : (fields.map Prod.fst).Nodup) :
    (mcp_call_tool_json st (some nm) (some args) (Except.ok (Json.obj fields))
        callOutcome).2.2
      = some { name := nm, arguments := some fields } := by
  cases callOutcome <;> simp [mcp_call_tool_json, hg, hs, Json.asObject]

/-- C8 witness: the parsed object `{"msg": "hi"}` is dispatched on
`stConnected` exactly as the field list it was parsed to. -/
theorem mcp_call_tool_json_object_roundtrip_witness :
    (mcp_call_tool_json stConnected (some "echo") (some "\x7b\"msg\": \"hi\"\x7d")
        (Except.ok (Json.obj [("msg", Json.str "hi")])) (Except.ok Json.null)).2.2
      = some { name := "echo", arguments := some [("msg", Json.str "hi")] } :=
  mcp_call_tool_json_object_roundtrip stConnected clientA sessionA "echo"
    "\x7b\"msg\": \"hi\"\x7d" [("msg", Json.str "hi")] (Except.ok Json.null)
    rfl rfl (by simp)

/-- C10: in a connected state, an argument string that parses as JSON but
not as an object is not rejected: `mcp_call_tool_json` dispatches the call
with absent (`None`) arguments and returns the collaborator's result, and
the `mcp_call_tool_init` production task likewise dispatches with absent
arguments and emits no `Error` chunk when the call succeeds — the
non-object value is silently dropped. -/
theorem call_tool_nonobject_arguments_dropped (st : GlobalState) (c : McpClient)
    (s : Session) (nm args : String) (v : Json) (callOutcome : Except String Json)
    (taskOutcome : Except String (Option Json))
    (hg : st.globalClient = some c) (hs : c.service = some s)
    (hv : v.asObject = none) :
    (mcp_call_tool_json st (some nm) (some args) (Except.ok v) callOutcome).2.2
      = some { name := nm, arguments := none }
    ∧ (∀ rj, callOutcome = Except.ok rj →
        (mcp_call_tool_json st (some nm) (some args) (Except.ok v) callOutcome).2.1
          = Json.render (Json.obj [("result", rj)]))
    ∧ (callToolTaskChunks true true nm (Except.ok v) taskOutcome).2
        = some { name := nm, arguments := none }
    ∧ (∀ j, taskOutcome = Except.ok j →
        ∀ ch ∈ (callToolTaskChunks true true nm (Except.ok v) taskOutcome).1,
          ∀ e, ch ≠ StreamChunk.error e) := by
  refine ⟨?_, ?_, ?_, ?_⟩
  · cases callOutcome <;> simp [mcp_call_tool_json, hg, hs, hv]
  · rintro rj rfl
    simp [mcp_call_tool_json, hg, hs, hv]
  · cases taskOutcome with
    | error e => simp [callToolTaskChunks, hv]
    | ok r => cases r <;> simp [callToolTaskChunks, hv]
  · rintro j rfl ch hch e
    cases j with
    | none =>
        simp [callToolTaskChunks, hv] at hch
        subst hch
        exact fun h => StreamChunk.noConfusion h
    | some rj =>
        simp only [callToolTaskChunks, hv, if_true] at hch
        rcases List.mem_append.mp hch with hpre | hdone
        · rcases extractTextChunks_text rj ch hpre with ⟨t, rfl⟩
          exact fun h => StreamChunk.noConfusion h
        · rcases List.mem_singleton.mp hdone with rfl
          exact fun h => StreamChunk.noConfusion h

/-- C9 (amended): there is no single lazily-created process-wide runtime:
every `mcp_client_new` call whose `Runtime::new()` succeeds, and every
`mcp_connect` call that passes URL/header validation and creates its
runtime, constructs one fresh execution runtime of its own (lib.rs lines
244 and 323); asynchronous work then runs on the runtime of the most
recently stored client. -/
theorem ffi_calls_create_runtime_per_call (st : GlobalState) (url : String)
    (headers : HeadersInput) (legacySse : Int) (outcome : Except String Session)
    (h : headers ≠ HeadersInput.parseError) :
    (mcp_connect st (some url) headers legacySse true outcome).1.runtimesCreated
      = st.runtimesCreated + 1
    ∧ (mcp_client_new st true).1.runtimesCreated = st.runtimesCreated + 1 := by
  constructor
  · cases headers with
    | parseError => exact absurd rfl h
    | null => cases outcome <;> simp [mcp_connect]
    | parsed m => cases outcome <;> simp [mcp_connect]
  · simp [mcp_client_new]

/-- C9 witness: one `mcp_connect` from the initial state brings the
runtime count to one, and `mcp_client_new` would do the same. -/
theorem ffi_calls_create_runtime_per_call_witness :
    (mcp_connect initialState (some "http://a/sse") HeadersInput.null 0 true
        (Except.ok { sid := 1 })).1.runtimesCreated = initialState.runtimesCreated + 1
    ∧ (mcp_client_new initialState true).1.runtimesCreated
        = initialState.runtimesCreated + 1 :=
  ⟨(ffi_calls_create_runtime_per_call initialState "http://a/sse" HeadersInput.null 0
      (Except.ok { sid := 1 }) (by simp)).1,
   (ffi_calls_create_runtime_per_call initialState "http://a/sse" HeadersInput.null 0
      (Except.ok { sid := 1 }) (by simp)).2⟩

/-- C9 counterexample: the claim says one runtime is created exactly once
per process, with no FFI operation creating an additional one.  Two
consecutive `mcp_connect` calls from the initial state each construct a
fresh tokio runtime (lib.rs line 323 runs on every call), leaving two
runtimes created where the claim allows at most one. -/
theorem two_connects_create_two_runtimes :
    (mcp_connect
        (mcp_connect initialState (some "http://a/sse") HeadersInput.null 0 true
          (Except.ok { sid := 1 })).1
        (some "http://a/sse") HeadersInput.null 0 true
        (Except.ok { sid := 2 })).1.runtimesCreated = 2
    ∧ (2 : Nat) ≠ 1 :=
  ⟨rfl, by decide⟩

/-- C10 witness: on `stConnected`, the parsed array argument `[1, 2]` is
dispatched with absent arguments, yields the collaborator's result, and
the streaming task emits no error chunk. -/
theorem call_tool_nonobject_arguments_dropped_witness :
    (mcp_call_tool_json stConnected (some "echo") (some "[1, 2]")
        (Except.ok (Json.arr [Json.num 1, Json.num 2])) (Except.ok Json.null)).2.2
      = some { name := "echo", arguments := none }
    ∧ (mcp_call_tool_json stConnected (some "echo") (some "[1, 2]")
        (Except.ok (Json.arr [Json.num 1, Json.num 2])) (Except.ok Json.null)).2.1
      = Json.render (Json.obj [("result", Json.null)])
    ∧ (callToolTaskChunks true true "echo"
        (Except.ok (Json.arr [Json.num 1, Json.num 2])) (Except.ok none)).2
      = some { name := "echo", arguments := none } :=
  ⟨(call_tool_nonobject_arguments_dropped stConnected clientA sessionA "echo" "[1, 2]"
      (Json.arr [Json.num 1, Json.num 2]) (Except.ok Json.null) (Except.ok none)
      rfl rfl rfl).1,
   (call_tool_nonobject_arguments_dropped stConnected clientA sessionA "echo" "[1, 2]"
      (Json.arr [Json.num 1, Json.num 2]) (Except.ok Json.null) (Except.ok none)
      rfl rfl rfl).2.1 Json.null rfl,
   (call_tool_nonobject_arguments_dropped stConnected clientA sessionA "echo" "[1, 2]"
      (Json.arr [Json.num 1, Json.num 2]) (Except.ok Json.null) (Except.ok none)
      rfl rfl rfl).2.2.1⟩
